import Mathlib

/-!
# Shallow embedding of the CTViewer volume renderer (mattemangia/CTS)

This file models the renderer state and the operations of
`src/CTViewer/VolumeRenderer.cpp` and the C-ABI shim `src/CTViewer/CTViewer.cpp`,
and proves/refutes the frozen claims about them.

Modelling conventions:
* C++ `float` camera quantities are modelled as real numbers (`ℝ`), since the
  camera code uses `sin`/`cos`/π; the float constant `0.1f` and `XM_PIDIV2`
  are modelled as the reals `0.1` and `π/2`.
* The material table entries are modelled over `ℚ` (the decoded channel values
  `k/255` for `k ∈ [0,255]` are exact in `float`, so `ℚ` is faithful here).
* C++ `int` arguments are modelled as `ℤ`.
* Pointers are modelled by a `Bool` flag meaning "non-null"; the raw color
  array behind `const int*` is modelled as a function `ℕ → ℕ` giving the
  32-bit pattern of each entry (C++ `>> k & 0xFF` on a two's-complement `int`
  extracts the same byte as `/ 2^k % 256` on the unsigned reinterpretation).
* Graphics-API calls whose success depends on the external device are modelled
  by environment records of `Bool` outcome flags, one per creation step; a GPU
  resource held in a `ComPtr` member is modelled as a `Bool` (resource exists)
  or an `Option` carrying the data the claims need (texture dimensions).
* C++ exceptions are modelled with `Except`; a `try`/`catch` boundary is a
  `match` on the `Except` value.
-/

/-- An RGBA color with normalized rational channels, modelling `XMFLOAT4`
(fields in the storage order `XMFLOAT4(r, g, b, a)`). -/
structure Float4 where
  r : ℚ
  g : ℚ
  b : ℚ
  a : ℚ
deriving DecidableEq, Repr

/-- A 3-component real vector, modelling `XMFLOAT3`. -/
structure Vec3 where
  x : ℝ
  y : ℝ
  z : ℝ

/-- The renderer-visible state of a `VolumeRenderer` instance: one `Bool` or
`Option` per GPU resource member, the volume metadata, the camera state and the
rendering parameters, mirroring the member list of `VolumeRenderer.h`. -/
structure RendererState where
  device : Bool
  context : Bool
  swapChain : Bool
  renderTargetView : Bool
  depthStencilView : Bool
  shaders : Bool
  constantBuffer : Bool
  materialBuffer : Bool
  materialSRV : Bool
  sampler : Bool
  vertexBuffer : Bool
  indexBuffer : Bool
  volumeTexture : Option (ℤ × ℤ × ℤ)
  volumeSRV : Bool
  labelTexture : Option (ℤ × ℤ × ℤ)
  labelSRV : Bool
  volumeWidth : ℤ
  volumeHeight : ℤ
  volumeDepth : ℤ
  voxelSize : ℚ
  width : ℤ
  height : ℤ
  cameraPosition : Vec3
  focusPoint : Vec3
  upVector : Vec3
  cameraTheta : ℝ
  cameraPhi : ℝ
  cameraRadius : ℝ
  opacity : ℚ
  brightness : ℚ
  contrast : ℚ
  renderMode : ℤ
  showLabels : Bool
  materials : List Float4

/-- The state established by the `VolumeRenderer` constructor: all resource
pointers null, volume dimensions zero, camera and parameters at their defaults,
and an *empty* material vector (`m_materials` is only resized during
`Initialize`). -/
def initRenderer : RendererState where
  device := false
  context := false
  swapChain := false
  renderTargetView := false
  depthStencilView := false
  shaders := false
  constantBuffer := false
  materialBuffer := false
  materialSRV := false
  sampler := false
  vertexBuffer := false
  indexBuffer := false
  volumeTexture := none
  volumeSRV := false
  labelTexture := none
  labelSRV := false
  volumeWidth := 0
  volumeHeight := 0
  volumeDepth := 0
  voxelSize := 1
  width := 0
  height := 0
  cameraPosition := ⟨0, 0, -2⟩
  focusPoint := ⟨0, 0, 0⟩
  upVector := ⟨0, 1, 0⟩
  cameraTheta := 0
  cameraPhi := 0
  cameraRadius := 2
  opacity := 5 / 100
  brightness := 0
  contrast := 1
  renderMode := 0
  showLabels := true
  materials := []

/-! ## Material table (`UpdateMaterials`) -/

/-- `decodeARGB` models the body of the `UpdateMaterials` loop: the packed
32-bit ARGB pattern is split into bytes (alpha from bits 24-31, red 16-23,
green 8-15, blue 0-7) and each is divided by 255; the result is stored as
`XMFLOAT4(r, g, b, a)`. -/
def decodeARGB (argb : ℕ) : Float4 where
  r := ((argb / 2 ^ 16 % 256 : ℕ) : ℚ) / 255
  g := ((argb / 2 ^ 8 % 256 : ℕ) : ℚ) / 255
  b := ((argb % 256 : ℕ) : ℚ) / 255
  a := ((argb / 2 ^ 24 % 256 : ℕ) : ℚ) / 255

/-- The write loop of `VolumeRenderer::UpdateMaterials`:
`for (i = 0; i < count; i++) m_materials[i] = decode(colors[i])`. -/
def writeMaterials (cs : ℕ → ℕ) : ℕ → List Float4 → List Float4
  | 0, m => m
  | n + 1, m => (writeMaterials cs n m).set n (decodeARGB (cs n))

/-- `std::vector::resize(256, zero)` applied to `m_materials`. -/
def resizeMaterials (m : List Float4) : List Float4 :=
  if m.length ≤ 256 then m ++ List.replicate (256 - m.length) ⟨0, 0, 0, 0⟩
  else m.take 256

namespace VolumeRenderer

/-- `VolumeRenderer::UpdateMaterials`: null-pointer guard, the count clamp
`count = min(256, max(1, count))` applied when `count ≤ 0 || count > 256`,
then the decode-and-write loop. (The subsequent GPU-buffer re-upload does not
touch `m_materials` and is not renderer-visible state modelled here.) -/
def UpdateMaterials (s : RendererState) (colorsNull : Bool) (cs : ℕ → ℕ)
    (count : ℤ) : RendererState :=
  if colorsNull then s
  else
    let c : ℤ := if count ≤ 0 ∨ 256 < count then min 256 (max 1 count) else count
    { s with materials := writeMaterials cs c.toNat s.materials }

end VolumeRenderer

/-! ## Camera model -/

/-- The phi clamp of `RotateCamera`:
`max(-XM_PIDIV2 + 0.1f, min(XM_PIDIV2 - 0.1f, m_cameraPhi))`. -/
noncomputable def clampPhi (phi : ℝ) : ℝ :=
  max (-(Real.pi / 2) + 0.1) (min (Real.pi / 2 - 0.1) phi)

/-- The radius clamp of `ZoomCamera`: `max(0.5f, min(10.0f, m_cameraRadius))`. -/
noncomputable def clampRadius (r : ℝ) : ℝ :=
  max 0.5 (min 10 r)

/-- The camera position recompute of `RotateCamera`:
`focus + radius * (cos(phi)·sin(theta), sin(phi), cos(phi)·cos(theta))`
componentwise, exactly as the three assignments in the source. -/
noncomputable def camPosition (focus : Vec3) (radius theta phi : ℝ) : Vec3 where
  x := focus.x + radius * Real.cos phi * Real.sin theta
  y := focus.y + radius * Real.sin phi
  z := focus.z + radius * Real.cos phi * Real.cos theta

namespace VolumeRenderer

/-- `VolumeRenderer::RotateCamera`: theta accumulates unbounded, phi is
incremented then clamped, and the cached camera position is recomputed from
the (new) parameters. -/
noncomputable def RotateCamera (s : RendererState) (deltaX deltaY : ℝ) :
    RendererState :=
  let theta := s.cameraTheta + deltaX
  let phi := clampPhi (s.cameraPhi + deltaY)
  { s with
    cameraTheta := theta
    cameraPhi := phi
    cameraPosition := camPosition s.focusPoint s.cameraRadius theta phi }

/-- `VolumeRenderer::ZoomCamera`: `m_cameraRadius -= delta`, clamp into
`[0.5, 10.0]`, then `RotateCamera(0, 0)` to refresh the cached position. -/
noncomputable def ZoomCamera (s : RendererState) (delta : ℝ) : RendererState :=
  RotateCamera { s with cameraRadius := clampRadius (s.cameraRadius - delta) } 0 0

/-- `VolumeRenderer::ResetCamera`: literal reassignment of all camera fields. -/
def ResetCamera (s : RendererState) : RendererState :=
  { s with
    cameraPosition := ⟨0, 0, -2⟩
    focusPoint := ⟨0, 0, 0⟩
    upVector := ⟨0, 1, 0⟩
    cameraTheta := 0
    cameraPhi := 0
    cameraRadius := 2 }

/-- `VolumeRenderer::SetOpacity` (clamped to `[0, 1]`). -/
def SetOpacity (s : RendererState) (opacity : ℚ) : RendererState :=
  { s with opacity := max 0 (min 1 opacity) }

/-- `VolumeRenderer::SetBrightness` (clamped to `[-1, 1]`). -/
def SetBrightness (s : RendererState) (brightness : ℚ) : RendererState :=
  { s with brightness := max (-1) (min 1 brightness) }

/-- `VolumeRenderer::SetContrast` (clamped to `[0.1, 5]`). -/
def SetContrast (s : RendererState) (contrast : ℚ) : RendererState :=
  { s with contrast := max (1 / 10) (min 5 contrast) }

/-- `VolumeRenderer::SetRenderMode` (no clamp). -/
def SetRenderMode (s : RendererState) (mode : ℤ) : RendererState :=
  { s with renderMode := mode }

/-- `VolumeRenderer::SetShowLabels`. -/
def SetShowLabels (s : RendererState) (flag : Bool) : RendererState :=
  { s with showLabels := flag }

end VolumeRenderer

/-! ## Volume and label loading -/

/-- Outcomes of the two device-dependent creation calls inside
`CreateVolumeTexture` / `CreateLabelTexture`: `CreateTexture3D` and
`CreateShaderResourceView`. -/
structure GpuEnv where
  createTexture3DOk : Bool
  createSRVOk : Bool
deriving DecidableEq

namespace VolumeRenderer

/-- `VolumeRenderer::CreateVolumeTexture`: device guard, stored-dimension
guard, data guard, then `CreateTexture3D` (sizing the texture from the stored
`m_volumeWidth/Height/Depth`) and `CreateShaderResourceView`; each failure
returns false keeping whatever was already assigned. -/
def CreateVolumeTexture (s : RendererState) (env : GpuEnv) (dataOk : Bool) :
    Bool × RendererState :=
  if ¬s.device then (false, s)
  else if s.volumeWidth ≤ 0 ∨ s.volumeHeight ≤ 0 ∨ s.volumeDepth ≤ 0 then (false, s)
  else if ¬dataOk then (false, s)
  else if ¬env.createTexture3DOk then (false, s)
  else
    let s1 := { s with
      volumeTexture := some (s.volumeWidth, s.volumeHeight, s.volumeDepth) }
    if ¬env.createSRVOk then (false, s1)
    else (true, { s1 with volumeSRV := true })

/-- `VolumeRenderer::LoadVolumeData`: null-data and argument-dimension guards
return false with no mutation; then `m_volumeWidth/Height/Depth` and
`m_voxelSize` are assigned *before* `CreateVolumeTexture` runs, so a
creation failure leaves those assignments in place. -/
def LoadVolumeData (s : RendererState) (env : GpuEnv) (dataOk : Bool)
    (width height depth : ℤ) (voxelSize : ℚ) : Bool × RendererState :=
  if ¬dataOk then (false, s)
  else if width ≤ 0 ∨ height ≤ 0 ∨ depth ≤ 0 then (false, s)
  else
    CreateVolumeTexture
      { s with
        volumeWidth := width
        volumeHeight := height
        volumeDepth := depth
        voxelSize := voxelSize }
      env dataOk

/-- `VolumeRenderer::CreateLabelTexture`: same shape as `CreateVolumeTexture`;
the label texture is sized from the *stored volume* dimensions. -/
def CreateLabelTexture (s : RendererState) (env : GpuEnv) (dataOk : Bool) :
    Bool × RendererState :=
  if ¬s.device then (false, s)
  else if s.volumeWidth ≤ 0 ∨ s.volumeHeight ≤ 0 ∨ s.volumeDepth ≤ 0 then (false, s)
  else if ¬dataOk then (false, s)
  else if ¬env.createTexture3DOk then (false, s)
  else
    let s1 := { s with
      labelTexture := some (s.volumeWidth, s.volumeHeight, s.volumeDepth) }
    if ¬env.createSRVOk then (false, s1)
    else (true, { s1 with labelSRV := true })

/-- `VolumeRenderer::LoadLabelData`: validates the data pointer and the
`width`/`height`/`depth` arguments, then calls `CreateLabelTexture`, which
ignores those arguments and uses the stored volume dimensions. -/
def LoadLabelData (s : RendererState) (env : GpuEnv) (dataOk : Bool)
    (width height depth : ℤ) : Bool × RendererState :=
  if ¬dataOk then (false, s)
  else if width ≤ 0 ∨ height ≤ 0 ∨ depth ≤ 0 then (false, s)
  else CreateLabelTexture s env dataOk

end VolumeRenderer

/-! ## Resize, Initialize, Render -/

/-- Outcomes of the device-dependent steps of `VolumeRenderer::Resize`:
`ResizeBuffers`, `GetBuffer`, `CreateRenderTargetView` and
`CreateDepthStencilView`. -/
structure ResizeEnv where
  resizeBuffersOk : Bool
  getBufferOk : Bool
  rtvOk : Bool
  dsvOk : Bool
deriving DecidableEq

/-- Outcomes of the creation steps of `VolumeRenderer::Initialize`, one flag
per helper (a flag covers every API call inside the corresponding helper). -/
structure InitEnv where
  deviceOk : Bool
  rtvOk : Bool
  dsvOk : Bool
  shadersOk : Bool
  constantBuffersOk : Bool
  samplersOk : Bool
  vertexBufferOk : Bool
  indexBufferOk : Bool
deriving DecidableEq

/-- The two C++ handler classes of the render boundary:
`catch (std::exception&)` and `catch (...)`. -/
inductive Exn where
  | stdExn
  | unknown
deriving DecidableEq

/-- The environment of one `Render` call: an optional exception raised at one
of the numbered steps of the sequence, and the `Present` outcome. -/
structure RenderEnv where
  raiseAt : Option (ℕ × Exn)
  presentOk : Bool

/-- One step of the render sequence: raises the environment's exception when
this is the designated step, otherwise succeeds. -/
def rstep (env : RenderEnv) (k : ℕ) : Except Exn Unit :=
  match env.raiseAt with
  | some (j, e) => if j = k then Except.error e else Except.ok ()
  | none => Except.ok ()

/-- The body of `VolumeRenderer::Render` inside the `try`: the resource guard,
the fixed step sequence (clear, bind, constant-buffer update, draw, present),
the warnings for absent volume view / sampler (and the info log for an absent
label view), and the error log for a failed `Present`, which returns normally.
The result collects the severities logged. -/
def renderBody (s : RendererState) (env : RenderEnv) : Except Exn (List ℤ) := do
  if ¬(s.context ∧ s.device ∧ s.swapChain) then
    return [2]
  rstep env 0  -- ClearRenderTargetView
  rstep env 1  -- ClearDepthStencilView
  rstep env 2  -- OMSetRenderTargets
  rstep env 3  -- vertex/index buffer, topology, layout, vertex shader binds
  rstep env 4  -- UpdateConstantBuffers and constant-buffer binds
  rstep env 5  -- PSSetShader
  let srvLogs : List ℤ :=
    (if s.volumeSRV then [] else [1])
      ++ (if s.labelSRV then [] else [0])
      ++ (if s.sampler then [] else [1])
  rstep env 6  -- shader-resource and sampler binds
  rstep env 7  -- DrawIndexed(36, 0, 0)
  rstep env 8  -- the Present call itself
  let presentLogs : List ℤ := if env.presentOk then [] else [2]
  return srvLogs ++ presentLogs

namespace VolumeRenderer

/-- `VolumeRenderer::Render`: the body runs inside `try`; both `catch`
handlers log at ERROR severity and swallow, so no exception leaves the call
(first component `none` means the call returned normally). -/
def Render (s : RendererState) (env : RenderEnv) : Option Exn × List ℤ :=
  match renderBody s env with
  | Except.ok logs => (none, logs)
  | Except.error Exn.stdExn => (none, [2])
  | Except.error Exn.unknown => (none, [2])

/-- `VolumeRenderer::Resize`: dimension and device guards, release of the two
surface views, then the resize/recreate sequence, each failure aborting with
the steps so far kept. -/
def Resize (s : RendererState) (env : ResizeEnv) (width height : ℤ) :
    RendererState :=
  if width ≤ 0 ∨ height ≤ 0 then s
  else if ¬(s.device ∧ s.swapChain) then s
  else
    let s1 := { s with renderTargetView := false, depthStencilView := false }
    if ¬env.resizeBuffersOk then s1
    else if ¬env.getBufferOk then s1
    else if ¬env.rtvOk then s1
    else
      let s2 := { s1 with renderTargetView := true }
      if ¬env.dsvOk then s2
      else { s2 with depthStencilView := true, width := width, height := height }

/-- `VolumeRenderer::Initialize`: handle and dimension guards, assignment of
`m_width`/`m_height`, then the fixed creation sequence; each failure returns
false keeping the steps already completed, and `m_materials` is resized to 256
inside `CreateConstantBuffers` and again at the end. -/
def Initialize (s : RendererState) (env : InitEnv) (hwndOk : Bool)
    (width height : ℤ) : Bool × RendererState :=
  if ¬hwndOk then (false, s)
  else if width ≤ 0 ∨ height ≤ 0 then (false, s)
  else
    let s1 := { s with width := width, height := height }
    if ¬env.deviceOk then (false, s1)
    else
      let s2 := { s1 with device := true, context := true, swapChain := true }
      if ¬env.rtvOk then (false, s2)
      else
        let s3 := { s2 with renderTargetView := true }
        if ¬env.dsvOk then (false, s3)
        else
          let s4 := { s3 with depthStencilView := true }
          if ¬env.shadersOk then (false, s4)
          else
            let s5 := { s4 with shaders := true }
            if ¬env.constantBuffersOk then (false, s5)
            else
              let s6 := { s5 with
                constantBuffer := true
                materialBuffer := true
                materialSRV := true
                materials := resizeMaterials s5.materials }
              if ¬env.samplersOk then (false, s6)
              else
                let s7 := { s6 with sampler := true }
                if ¬env.vertexBufferOk then (false, s7)
                else
                  let s8 := { s7 with vertexBuffer := true }
                  if ¬env.indexBufferOk then (false, s8)
                  else
                    (true, { s8 with
                      indexBuffer := true
                      materials := resizeMaterials s8.materials })

end VolumeRenderer

/-- An `InitEnv` in which every creation step succeeds. -/
def envAllOk : InitEnv :=
  ⟨true, true, true, true, true, true, true, true⟩

/-- An `InitEnv` in which device/swap-chain creation fails (so `Initialize`
fails at its first device-dependent step). -/
def envDeviceFail : InitEnv :=
  ⟨false, false, false, false, false, false, false, false⟩

/-- A `GpuEnv` in which both creation calls succeed. -/
def gpuOk : GpuEnv := ⟨true, true⟩

/-- A `GpuEnv` in which `CreateTexture3D` fails. -/
def gpuTexFail : GpuEnv := ⟨false, false⟩

/-- The renderer state after a successful `Initialize(hwnd, 800, 600)`:
all session resources exist, no volume is loaded, and the material table
holds 256 transparent entries. -/
def readyState : RendererState :=
  (VolumeRenderer.Initialize initRenderer envAllOk true 800 600).2

namespace CTViewer

/-- The exported `UpdateMaterials` shim: returns with no renderer call when the
renderer is not initialized, the colors pointer is null, or `count ≤ 0`. -/
def UpdateMaterials (g : Option RendererState) (colorsNull : Bool) (cs : ℕ → ℕ)
    (count : ℤ) : Option RendererState :=
  match g with
  | none => none
  | some s =>
    if colorsNull then some s
    else if count ≤ 0 then some s
    else some (VolumeRenderer.UpdateMaterials s colorsNull cs count)

/-- The exported `LoadVolumeData` shim: fails when the renderer is not
initialized, the data pointer is null, or a dimension is non-positive, and
otherwise delegates to `VolumeRenderer::LoadVolumeData`. -/
def LoadVolumeData (g : Option RendererState) (env : GpuEnv) (dataOk : Bool)
    (width height depth : ℤ) (voxelSize : ℚ) : Bool × Option RendererState :=
  match g with
  | none => (false, none)
  | some s =>
    if ¬dataOk then (false, some s)
    else if width ≤ 0 ∨ height ≤ 0 ∨ depth ≤ 0 then (false, some s)
    else
      let r := VolumeRenderer.LoadVolumeData s env dataOk width height depth voxelSize
      (r.1, some r.2)

/-- The exported `LoadLabelData` shim. -/
def LoadLabelData (g : Option RendererState) (env : GpuEnv) (dataOk : Bool)
    (width height depth : ℤ) : Bool × Option RendererState :=
  match g with
  | none => (false, none)
  | some s =>
    if ¬dataOk then (false, some s)
    else if width ≤ 0 ∨ height ≤ 0 ∨ depth ≤ 0 then (false, some s)
    else
      let r := VolumeRenderer.LoadLabelData s env dataOk width height depth
      (r.1, some r.2)

/-- The exported `Resize` shim. -/
def Resize (g : Option RendererState) (env : ResizeEnv) (width height : ℤ) :
    Option RendererState :=
  match g with
  | none => none
  | some s =>
    if width ≤ 0 ∨ height ≤ 0 then some s
    else some (VolumeRenderer.Resize s env width height)

/-- The exported `Render` shim: null-renderer guard plus an outer catch-all
`try`/`catch` (the inner boundary already swallows everything, so the outer
handlers only matter for the log on the null path). -/
def Render (g : Option RendererState) (env : RenderEnv) : Option Exn × List ℤ :=
  match g with
  | none => (none, [2])
  | some s =>
    match VolumeRenderer.Render s env with
    | (none, logs) => (none, logs)
    | (some Exn.stdExn, _) => (none, [2])
    | (some Exn.unknown, _) => (none, [2])

/-- The exported `Initialize` shim: validates the handle and dimensions before
touching the global, then *replaces* `g_renderer` with a freshly constructed
instance and runs `VolumeRenderer::Initialize` on it; the new instance stays
installed in the global even when that initialization fails. -/
def Initialize (g : Option RendererState) (env : InitEnv) (hwndOk : Bool)
    (width height : ℤ) : Bool × Option RendererState :=
  if ¬hwndOk then (false, g)
  else if width ≤ 0 ∨ height ≤ 0 then (false, g)
  else
    let r := VolumeRenderer.Initialize initRenderer env hwndOk width height
    (r.1, some r.2)

/-- The exported `RotateCamera` shim. -/
noncomputable def RotateCamera (g : Option RendererState) (deltaX deltaY : ℝ) :
    Option RendererState :=
  match g with
  | none => none
  | some s => some (VolumeRenderer.RotateCamera s deltaX deltaY)

/-- The exported `ZoomCamera` shim. -/
noncomputable def ZoomCamera (g : Option RendererState) (delta : ℝ) :
    Option RendererState :=
  match g with
  | none => none
  | some s => some (VolumeRenderer.ZoomCamera s delta)

/-- The exported `ResetCamera` shim. -/
def ResetCamera (g : Option RendererState) : Option RendererState :=
  match g with
  | none => none
  | some s => some (VolumeRenderer.ResetCamera s)

/-- The exported `SetRenderingParams` shim: applies the five renderer setters
in field order. -/
def SetRenderingParams (g : Option RendererState) (opacity brightness contrast : ℚ)
    (renderMode : ℤ) (showLabels : Bool) : Option RendererState :=
  match g with
  | none => none
  | some s =>
    some (VolumeRenderer.SetShowLabels
      (VolumeRenderer.SetRenderMode
        (VolumeRenderer.SetContrast
          (VolumeRenderer.SetBrightness
            (VolumeRenderer.SetOpacity s opacity) brightness) contrast)
        renderMode) showLabels)

end CTViewer

/-! ## Helper lemmas -/

theorem writeMaterials_length (cs : ℕ → ℕ) (n : ℕ) (m : List Float4) :
    (writeMaterials cs n m).length = m.length := by
  induction n with
  | zero => rfl
  | succ k ih => simp [writeMaterials, List.length_set, ih]

theorem writeMaterials_getElem? (cs : ℕ → ℕ) (n : ℕ) (m : List Float4) (i : ℕ)
    (hi : i < n) (hm : i < m.length) :
    (writeMaterials cs n m)[i]? = some (decodeARGB (cs i)) := by
  induction n with
  | zero => omega
  | succ k ih =>
    rcases Nat.lt_succ_iff_lt_or_eq.mp hi with h | h
    · rw [writeMaterials, List.getElem?_set_ne (by omega)]
      exact ih h
    · subst h
      rw [writeMaterials]
      exact List.getElem?_set_eq_of_lt _ (by rw [writeMaterials_length]; exact hm)

set_option maxRecDepth 40000 in
theorem readyState_materials_length : readyState.materials.length = 256 := by
  simp [readyState, VolumeRenderer.Initialize, envAllOk, initRenderer, resizeMaterials]

/-! ## C3 -/

/-- C3: through the exported `updateMaterials` entry point, a call with
`count > 256` behaves identically to a call with `count == 256` (only the
first 256 entries of the colors array are consulted), and a call with
`count ≤ 0` performs no mutation at all. -/
theorem updateMaterials_count_clamp (s : RendererState) (cs : ℕ → ℕ) (count : ℤ) :
    (256 < count →
      CTViewer.UpdateMaterials (some s) false cs count
        = CTViewer.UpdateMaterials (some s) false cs 256)
    ∧ (count ≤ 0 → CTViewer.UpdateMaterials (some s) false cs count = some s) := by
  constructor
  · intro h
    have hc : (if count ≤ 0 ∨ 256 < count then min 256 (max 1 count) else count)
        = (256 : ℤ) := by
      rw [if_pos (Or.inr h)]
      omega
    have hc' : (if (256 : ℤ) ≤ 0 ∨ 256 < (256 : ℤ) then min 256 (max 1 (256 : ℤ))
        else (256 : ℤ)) = (256 : ℤ) := by norm_num
    simp only [CTViewer.UpdateMaterials, VolumeRenderer.UpdateMaterials,
      Bool.false_eq_true, if_false, hc, hc']
    rw [if_neg (by omega), if_neg (by norm_num)]
  · intro h
    simp [CTViewer.UpdateMaterials, h]

/-- C3 witness: the two parts at `count = 300` and `count = -5`. -/
theorem updateMaterials_count_clamp_witness :
    ((256 : ℤ) < 300
      ∧ CTViewer.UpdateMaterials (some readyState) false (fun _ => 0) 300
          = CTViewer.UpdateMaterials (some readyState) false (fun _ => 0) 256)
    ∧ ((-5 : ℤ) ≤ 0
      ∧ CTViewer.UpdateMaterials (some readyState) false (fun _ => 0) (-5)
          = some readyState) :=
  ⟨⟨by norm_num,
    (updateMaterials_count_clamp readyState (fun _ => 0) 300).1 (by norm_num)⟩,
   ⟨by norm_num,
    (updateMaterials_count_clamp readyState (fun _ => 0) (-5)).2 (by norm_num)⟩⟩

/-! ## C7 -/

/-- The color array of the spec's worked example:
`[0xFFFF0000, 0xFF00FF00]`. -/
def csExample : ℕ → ℕ :=
  fun n => if n = 0 then 0xFFFF0000 else if n = 1 then 0xFF00FF00 else 0

/-- C7: `UpdateMaterials` decomposes each packed 32-bit ARGB entry into the
four normalized channels (alpha bits 24-31, red 16-23, green 8-15,
blue 0-7, each divided by 255) and writes the result at the corresponding
index; in particular `UpdateMaterials([0xFFFF0000, 0xFF00FF00], 2)` makes
material 0 equal `(r,g,b,a) = (1,0,0,1)` and material 1 equal `(0,1,0,1)`. -/
theorem updateMaterials_writes_decoded (s : RendererState) (cs : ℕ → ℕ)
    (hlen : s.materials.length = 256)
    (h0 : cs 0 = 0xFFFF0000) (h1 : cs 1 = 0xFF00FF00) :
    ((VolumeRenderer.UpdateMaterials s false cs 2).materials[0]?
        = some ⟨1, 0, 0, 1⟩
      ∧ (VolumeRenderer.UpdateMaterials s false cs 2).materials[1]?
        = some ⟨0, 1, 0, 1⟩)
    ∧ ∀ count : ℤ, 0 < count → count ≤ 256 → ∀ i : ℕ, (i : ℤ) < count →
        (VolumeRenderer.UpdateMaterials s false cs count).materials[i]?
          = some (decodeARGB (cs i)) := by
  have hgen : ∀ count : ℤ, 0 < count → count ≤ 256 → ∀ i : ℕ, (i : ℤ) < count →
      (VolumeRenderer.UpdateMaterials s false cs count).materials[i]?
        = some (decodeARGB (cs i)) := by
    intro count hpos hle i hi
    have hc : (if count ≤ 0 ∨ 256 < count then min 256 (max 1 count) else count)
        = count := by
      rw [if_neg (by omega)]
    simp only [VolumeRenderer.UpdateMaterials, Bool.false_eq_true, if_false, hc]
    exact writeMaterials_getElem? cs count.toNat s.materials i (by omega)
      (by rw [hlen]; omega)
  refine ⟨⟨?_, ?_⟩, hgen⟩
  · rw [hgen 2 (by norm_num) (by norm_num) 0 (by norm_num), h0]
    norm_num [decodeARGB]
  · rw [hgen 2 (by norm_num) (by norm_num) 1 (by norm_num), h1]
    norm_num [decodeARGB]

/-- C7 witness: the worked example evaluated on the post-`Initialize` state. -/
theorem updateMaterials_writes_decoded_witness :
    readyState.materials.length = 256
    ∧ ((VolumeRenderer.UpdateMaterials readyState false csExample 2).materials[0]?
        = some ⟨1, 0, 0, 1⟩
      ∧ (VolumeRenderer.UpdateMaterials readyState false csExample 2).materials[1]?
        = some ⟨0, 1, 0, 1⟩) :=
  ⟨readyState_materials_length,
   (updateMaterials_writes_decoded readyState csExample
     readyState_materials_length rfl rfl).1⟩

/-! ## Camera helper lemmas -/

theorem clampPhi_mem (phi : ℝ) :
    -(Real.pi / 2) + 0.1 ≤ clampPhi phi ∧ clampPhi phi ≤ Real.pi / 2 - 0.1 := by
  have hπ : (3 : ℝ) < Real.pi := Real.pi_gt_three
  refine ⟨le_max_left _ _, max_le (by norm_num; linarith) (min_le_left _ _)⟩

theorem clampPhi_of_mem (phi : ℝ) (hlo : -(Real.pi / 2) + 0.1 ≤ phi)
    (hhi : phi ≤ Real.pi / 2 - 0.1) : clampPhi phi = phi := by
  unfold clampPhi
  rw [min_eq_right hhi, max_eq_right hlo]

theorem clampPhi_zero : clampPhi 0 = 0 := by
  have hπ : (3 : ℝ) < Real.pi := Real.pi_gt_three
  exact clampPhi_of_mem 0 (by norm_num; linarith) (by norm_num; linarith)

/-! ## C2 -/

/-- C2 (amended): after any `rotateCamera` call, and hence after every
non-empty sequence of `rotateCamera` calls with arbitrary `deltaY` inputs,
the camera phi lies in the *closed* interval `[-π/2 + 0.1, π/2 - 0.1]`
(the endpoints are attained when the increment overshoots, so the open
interval of the original claim does not hold). -/
theorem rotateCamera_phi_clamped (s : RendererState) (deltaX deltaY : ℝ)
    (l : List (ℝ × ℝ)) :
    (-(Real.pi / 2) + 0.1 ≤ (VolumeRenderer.RotateCamera s deltaX deltaY).cameraPhi
      ∧ (VolumeRenderer.RotateCamera s deltaX deltaY).cameraPhi
          ≤ Real.pi / 2 - 0.1)
    ∧ (-(Real.pi / 2) + 0.1
        ≤ (l.foldl (fun u p => VolumeRenderer.RotateCamera u p.1 p.2)
            (VolumeRenderer.RotateCamera s deltaX deltaY)).cameraPhi
      ∧ (l.foldl (fun u p => VolumeRenderer.RotateCamera u p.1 p.2)
            (VolumeRenderer.RotateCamera s deltaX deltaY)).cameraPhi
          ≤ Real.pi / 2 - 0.1) := by
  refine ⟨clampPhi_mem _, ?_⟩
  induction l generalizing s deltaX deltaY with
  | nil => exact clampPhi_mem _
  | cons p l ih =>
    exact ih (VolumeRenderer.RotateCamera s deltaX deltaY) p.1 p.2

/-- C2 counterexample: from the initial camera state, `rotateCamera(0, 10)`
drives phi to exactly the upper bound `π/2 - 0.1`, which is *not* strictly
inside the open interval `(-π/2 + 0.1, π/2 - 0.1)`. -/
theorem rotateCamera_phi_open_interval_cex :
    (VolumeRenderer.RotateCamera initRenderer 0 10).cameraPhi = Real.pi / 2 - 0.1
    ∧ ¬((VolumeRenderer.RotateCamera initRenderer 0 10).cameraPhi
        < Real.pi / 2 - 0.1) := by
  have hπ : (3 : ℝ) < Real.pi := Real.pi_gt_three
  have hπ' : Real.pi < 3.15 := Real.pi_lt_d2
  have hval : (VolumeRenderer.RotateCamera initRenderer 0 10).cameraPhi
      = Real.pi / 2 - 0.1 := by
    show clampPhi (initRenderer.cameraPhi + 10) = Real.pi / 2 - 0.1
    have h0 : initRenderer.cameraPhi = 0 := rfl
    rw [h0, zero_add]
    unfold clampPhi
    rw [min_eq_left (by norm_num; linarith), max_eq_right (by norm_num; linarith)]
  exact ⟨hval, by rw [hval]; exact lt_irrefl _⟩

/-! ## C6 -/

/-- C6: every `zoomCamera` call leaves the radius in `[0.5, 10]` (hence so
does every sequence of such calls), the new radius is exactly the clamp of
`radius - delta`, and the recomputed camera position is derived from the
clamped radius (and the re-clamped phi), not from the raw requested value. -/
theorem zoomCamera_radius_clamped (s : RendererState) (delta : ℝ)
    (l : List ℝ) :
    ((0.5 : ℝ) ≤ (VolumeRenderer.ZoomCamera s delta).cameraRadius
      ∧ (VolumeRenderer.ZoomCamera s delta).cameraRadius ≤ 10)
    ∧ (VolumeRenderer.ZoomCamera s delta).cameraRadius
        = clampRadius (s.cameraRadius - delta)
    ∧ (VolumeRenderer.ZoomCamera s delta).cameraPosition
        = camPosition s.focusPoint (clampRadius (s.cameraRadius - delta))
            s.cameraTheta (clampPhi s.cameraPhi)
    ∧ ((0.5 : ℝ) ≤ (l.foldl (fun u d => VolumeRenderer.ZoomCamera u d)
          (VolumeRenderer.ZoomCamera s delta)).cameraRadius
      ∧ (l.foldl (fun u d => VolumeRenderer.ZoomCamera u d)
          (VolumeRenderer.ZoomCamera s delta)).cameraRadius ≤ 10) := by
  have hmem : ∀ r : ℝ, (0.5 : ℝ) ≤ clampRadius r ∧ clampRadius r ≤ 10 := by
    intro r
    exact ⟨le_max_left _ _, max_le (by norm_num) (min_le_left _ _)⟩
  refine ⟨hmem _, rfl, ?_, ?_⟩
  · show camPosition s.focusPoint (clampRadius (s.cameraRadius - delta))
        (s.cameraTheta + 0) (clampPhi (s.cameraPhi + 0)) = _
    rw [add_zero, add_zero]
  · induction l generalizing s delta with
    | nil => exact hmem _
    | cons d l ih => exact ih (VolumeRenderer.ZoomCamera s delta) d

/-! ## C8 -/

/-- C8 (amended): `rotateCamera(0,0)` leaves the camera position unchanged
from every state whose cached position is consistent with its orbital
parameters — in particular from every state produced by a previous rotate or
zoom call. (From the freshly constructed or reset state the cached position
`(0,0,-2)` is *not* consistent with the parameters, and the first call moves
it; see the counterexample.) -/
theorem rotateCamera_zero_idempotent (s : RendererState)
    (hlo : -(Real.pi / 2) + 0.1 ≤ s.cameraPhi)
    (hhi : s.cameraPhi ≤ Real.pi / 2 - 0.1)
    (hpos : s.cameraPosition
      = camPosition s.focusPoint s.cameraRadius s.cameraTheta s.cameraPhi) :
    (VolumeRenderer.RotateCamera s 0 0).cameraPosition = s.cameraPosition := by
  show camPosition s.focusPoint s.cameraRadius (s.cameraTheta + 0)
      (clampPhi (s.cameraPhi + 0)) = s.cameraPosition
  rw [add_zero, add_zero, clampPhi_of_mem s.cameraPhi hlo hhi, hpos]

/-- A camera state whose cached position agrees with its parameters (as after
any rotate/zoom call): theta = phi = 0, radius = 2, position `(0,0,2)`. -/
def consistentCam : RendererState :=
  { initRenderer with cameraPosition := ⟨0, 0, 2⟩ }

/-- C8 witness: the amended theorem applied to a concrete consistent state. -/
theorem rotateCamera_zero_idempotent_witness :
    (VolumeRenderer.RotateCamera consistentCam 0 0).cameraPosition
      = consistentCam.cameraPosition := by
  have hπ : (3 : ℝ) < Real.pi := Real.pi_gt_three
  exact rotateCamera_zero_idempotent consistentCam
    (by show -(Real.pi / 2) + 0.1 ≤ 0; norm_num; linarith)
    (by show (0 : ℝ) ≤ Real.pi / 2 - 0.1; norm_num; linarith)
    (by
      show (⟨0, 0, 2⟩ : Vec3) = camPosition ⟨0, 0, 0⟩ 2 0 0
      simp [camPosition, Vec3.mk.injEq])

/-- C8 counterexample: from the constructor/reset state (cached position
`(0,0,-2)`, theta = phi = 0, radius = 2), a single `rotateCamera(0,0)` call
recomputes the position to `(0,0,2)`, so the call is not idempotent on the
position there. -/
theorem rotateCamera_zero_not_idempotent_cex :
    (VolumeRenderer.RotateCamera initRenderer 0 0).cameraPosition
      ≠ initRenderer.cameraPosition := by
  have hz : (VolumeRenderer.RotateCamera initRenderer 0 0).cameraPosition.z = 2 := by
    show initRenderer.focusPoint.z
        + initRenderer.cameraRadius
          * Real.cos (clampPhi (initRenderer.cameraPhi + 0))
          * Real.cos (initRenderer.cameraTheta + 0) = 2
    have h1 : initRenderer.cameraPhi = 0 := rfl
    have h2 : initRenderer.cameraTheta = 0 := rfl
    rw [h1, h2, add_zero, clampPhi_zero, Real.cos_zero]
    show (0 : ℝ) + 2 * 1 * 1 = 2
    norm_num
  intro h
  have := congrArg Vec3.z h
  rw [hz] at this
  have hold : initRenderer.cameraPosition.z = -2 := rfl
  rw [hold] at this
  norm_num at this

/-! ## C9 -/

/-- A rotate or zoom camera call, for forming arbitrary call sequences. -/
inductive CamOp where
  | rot (deltaX deltaY : ℝ)
  | zoom (delta : ℝ)

/-- Apply a sequence of rotate/zoom calls to a renderer state. -/
noncomputable def applyCamOps (s : RendererState) (ops : List CamOp) :
    RendererState :=
  ops.foldl
    (fun t op =>
      match op with
      | CamOp.rot dx dy => VolumeRenderer.RotateCamera t dx dy
      | CamOp.zoom d => VolumeRenderer.ZoomCamera t d)
    s

/-- C9: `resetCamera` after any sequence of rotate/zoom calls restores
theta = 0, phi = 0, radius = 2.0 and position `(0,0,-2)` exactly (these are
literal reassignments, and focus and up are restored too). -/
theorem resetCamera_restores_defaults (s : RendererState) (ops : List CamOp) :
    (VolumeRenderer.ResetCamera (applyCamOps s ops)).cameraTheta = 0
    ∧ (VolumeRenderer.ResetCamera (applyCamOps s ops)).cameraPhi = 0
    ∧ (VolumeRenderer.ResetCamera (applyCamOps s ops)).cameraRadius = 2
    ∧ (VolumeRenderer.ResetCamera (applyCamOps s ops)).cameraPosition = ⟨0, 0, -2⟩
    ∧ (VolumeRenderer.ResetCamera (applyCamOps s ops)).focusPoint = ⟨0, 0, 0⟩
    ∧ (VolumeRenderer.ResetCamera (applyCamOps s ops)).upVector = ⟨0, 1, 0⟩ :=
  ⟨rfl, rfl, rfl, rfl, rfl, rfl⟩

/-! ## C1 -/

/-- C1 (amended): a `loadVolumeData` failure due to a null data pointer or a
non-positive dimension leaves the renderer state completely unchanged; but on
any call that passes those argument checks — including every call that then
fails in `CreateVolumeTexture` (device not initialized, or texture/view
creation failure) — the stored volume width, height, depth and voxel size
have already been overwritten with the new arguments. -/
theorem loadVolumeData_mutation (s : RendererState) (env : GpuEnv)
    (dataOk : Bool) (w h d : ℤ) (vs : ℚ) :
    (dataOk = false ∨ w ≤ 0 ∨ h ≤ 0 ∨ d ≤ 0 →
      VolumeRenderer.LoadVolumeData s env dataOk w h d vs = (false, s))
    ∧ (dataOk = true → 0 < w → 0 < h → 0 < d →
      (VolumeRenderer.LoadVolumeData s env dataOk w h d vs).2.volumeWidth = w
      ∧ (VolumeRenderer.LoadVolumeData s env dataOk w h d vs).2.volumeHeight = h
      ∧ (VolumeRenderer.LoadVolumeData s env dataOk w h d vs).2.volumeDepth = d
      ∧ (VolumeRenderer.LoadVolumeData s env dataOk w h d vs).2.voxelSize = vs) := by
  constructor
  · intro hbad
    rcases hbad with hd | hw
    · subst hd
      simp [VolumeRenderer.LoadVolumeData]
    · cases dataOk with
      | false => simp [VolumeRenderer.LoadVolumeData]
      | true =>
        rw [VolumeRenderer.LoadVolumeData, if_neg (by simp), if_pos hw]
  · intro hd hw hh hdp
    subst hd
    rw [VolumeRenderer.LoadVolumeData, if_neg (by simp), if_neg (by omega)]
    rw [VolumeRenderer.CreateVolumeTexture]
    split_ifs <;> simp_all

/-- C1 witness: the amended theorem at concrete inputs (a null-data failure
leaves the state alone; a valid-argument call stores `4×5×6`, voxel size 2). -/
theorem loadVolumeData_mutation_witness :
    VolumeRenderer.LoadVolumeData readyState gpuTexFail false 4 5 6 2
      = (false, readyState)
    ∧ (VolumeRenderer.LoadVolumeData readyState gpuTexFail true 4 5 6 2).2.volumeWidth
        = 4 :=
  ⟨(loadVolumeData_mutation readyState gpuTexFail false 4 5 6 2).1 (Or.inl rfl),
   ((loadVolumeData_mutation readyState gpuTexFail true 4 5 6 2).2 rfl
     (by norm_num) (by norm_num) (by norm_num)).1⟩

set_option maxRecDepth 40000 in
/-- C1 counterexample: on the initialized session state (device present, no
volume loaded, stored width 0), a `loadVolumeData(data, 4, 5, 6, 2)` call in
which `CreateTexture3D` fails returns failure, yet the stored volume width has
been mutated from 0 to 4 — renderer-visible state was partially mutated. -/
theorem loadVolumeData_partial_mutation_cex :
    (VolumeRenderer.LoadVolumeData readyState gpuTexFail true 4 5 6 2).1 = false
    ∧ readyState.volumeWidth = 0
    ∧ (VolumeRenderer.LoadVolumeData readyState gpuTexFail true 4 5 6 2).2.volumeWidth
        = 4 :=
  ⟨by decide, by decide, by decide⟩

/-! ## C10 -/

/-- C10 (amended): `loadLabelData` validates its `width`/`height`/`depth`
arguments but does not use them to size the label texture: on success the
label texture carries the *stored volume* dimensions, and the call fails
(returning the state unchanged) whenever the stored volume dimensions are
non-positive — as they are until some `loadVolumeData` call has passed its
argument validation — regardless of the arguments supplied. (A *failed*
`loadVolumeData` already stores its dimensions, so "no volume successfully
loaded" does not imply failure; see the counterexample.) -/
theorem loadLabelData_uses_stored_dims (s : RendererState) (env : GpuEnv)
    (dataOk : Bool) (w h d : ℤ) :
    (w ≤ 0 ∨ h ≤ 0 ∨ d ≤ 0 →
      VolumeRenderer.LoadLabelData s env dataOk w h d = (false, s))
    ∧ (s.volumeWidth ≤ 0 ∨ s.volumeHeight ≤ 0 ∨ s.volumeDepth ≤ 0 →
      VolumeRenderer.LoadLabelData s env dataOk w h d = (false, s))
    ∧ ((VolumeRenderer.LoadLabelData s env dataOk w h d).1 = true →
      (VolumeRenderer.LoadLabelData s env dataOk w h d).2.labelTexture
        = some (s.volumeWidth, s.volumeHeight, s.volumeDepth)) := by
  refine ⟨?_, ?_, ?_⟩
  · intro hw
    cases dataOk with
    | false => simp [VolumeRenderer.LoadLabelData]
    | true =>
      rw [VolumeRenderer.LoadLabelData, if_neg (by simp), if_pos hw]
  · intro hdims
    simp only [VolumeRenderer.LoadLabelData, VolumeRenderer.CreateLabelTexture]
    split_ifs <;> simp_all
  · intro hok
    simp only [VolumeRenderer.LoadLabelData, VolumeRenderer.CreateLabelTexture]
      at hok ⊢
    split_ifs at hok ⊢
    all_goals simp_all

/-- C10 witness: in the freshly initialized session (stored volume dimensions
all zero), `loadLabelData` with valid arguments and a fully working device
still fails and changes nothing. -/
theorem loadLabelData_uses_stored_dims_witness :
    (readyState.volumeWidth ≤ 0 ∨ readyState.volumeHeight ≤ 0
      ∨ readyState.volumeDepth ≤ 0)
    ∧ VolumeRenderer.LoadLabelData readyState gpuOk true 1 1 1
        = (false, readyState) :=
  ⟨by decide,
   (loadLabelData_uses_stored_dims readyState gpuOk true 1 1 1).2.1 (by decide)⟩

set_option maxRecDepth 40000 in
/-- C10 counterexample: after a `loadVolumeData(…, 4, 5, 6, …)` call that
*failed* during texture creation (so no volume was successfully loaded in the
session), `loadLabelData(data, 1, 1, 1)` nevertheless succeeds — and sizes
the label texture `4×5×6` from the stored dimensions, not from its own
arguments — refuting "returns failure whenever no volume has been
successfully loaded". -/
theorem loadLabelData_no_volume_cex :
    (VolumeRenderer.LoadVolumeData readyState gpuTexFail true 4 5 6 2).1 = false
    ∧ (VolumeRenderer.LoadLabelData
        (VolumeRenderer.LoadVolumeData readyState gpuTexFail true 4 5 6 2).2
        gpuOk true 1 1 1).1 = true
    ∧ (VolumeRenderer.LoadLabelData
        (VolumeRenderer.LoadVolumeData readyState gpuTexFail true 4 5 6 2).2
        gpuOk true 1 1 1).2.labelTexture = some (4, 5, 6) :=
  ⟨by decide, by decide, by decide⟩

/-! ## C4 -/

/-- C4 (amended): before `initialize` has ever constructed the renderer
instance (the global renderer is null), every data-dependent exported
operation fails without effect and without crashing: the boolean-returning
operations return false, the void-returning operations leave the (absent)
state unchanged, and `render` logs an error and propagates nothing. (After a
*failed* `initialize`, however, the freshly constructed instance remains
installed, and camera operations then mutate its state without reporting an
error; see the counterexample.) -/
theorem uninitialized_ops_noop (renv : RenderEnv)
    (genv : GpuEnv) (zenv : ResizeEnv) (dataOk cNull : Bool) (cs : ℕ → ℕ)
    (w h d cnt rm : ℤ) (vs o b c : ℚ) (dx dy dz : ℝ) (sl : Bool) :
    CTViewer.Render none renv = (none, [2])
    ∧ CTViewer.LoadVolumeData none genv dataOk w h d vs = (false, none)
    ∧ CTViewer.LoadLabelData none genv dataOk w h d = (false, none)
    ∧ CTViewer.UpdateMaterials none cNull cs cnt = none
    ∧ CTViewer.Resize none zenv w h = none
    ∧ CTViewer.RotateCamera none dx dy = none
    ∧ CTViewer.ZoomCamera none dz = none
    ∧ CTViewer.ResetCamera none = none
    ∧ CTViewer.SetRenderingParams none o b c rm sl = none :=
  ⟨rfl, rfl, rfl, rfl, rfl, rfl, rfl, rfl, rfl⟩

/-- C4 counterexample: an `initialize` call whose device creation fails
returns false but leaves the newly constructed renderer installed; a
subsequent `rotateCamera(1, 0)` — still before any *successful* initialize —
then mutates the camera state instead of being rejected. -/
theorem failed_initialize_rotate_mutates_cex :
    (CTViewer.Initialize none envDeviceFail true 800 600).1 = false
    ∧ CTViewer.RotateCamera
        (CTViewer.Initialize none envDeviceFail true 800 600).2 1 0
      ≠ (CTViewer.Initialize none envDeviceFail true 800 600).2 := by
  have hinit : CTViewer.Initialize none envDeviceFail true 800 600
      = (false, some { initRenderer with width := 800, height := 600 }) := rfl
  refine ⟨by rw [hinit], ?_⟩
  rw [hinit]
  intro hcontra
  have h2 := Option.some.inj hcontra
  have h3 := congrArg RendererState.cameraTheta h2
  have h4 : (VolumeRenderer.RotateCamera
      { initRenderer with width := 800, height := 600 } 1 0).cameraTheta
      = 0 + 1 := rfl
  have h5 : ({ initRenderer with width := 800, height := 600 }
      : RendererState).cameraTheta = 0 := rfl
  rw [h4, h5] at h3
  norm_num at h3

/-! ## C5 -/

/-- C5: `render()` never propagates a failure to its caller: for every
renderer state and every environment (including one that raises an exception
at any step of the sequence), both the core `Render` and the exported shim
return normally with no exception escaping; and when `Present` fails (with no
exception raised), the failure is logged at ERROR severity and the call still
returns normally. -/
theorem render_never_propagates (s : RendererState) (g : Option RendererState)
    (env : RenderEnv) :
    (VolumeRenderer.Render s env).1 = none
    ∧ (CTViewer.Render g env).1 = none
    ∧ (s.context = true → s.device = true → s.swapChain = true →
        env.raiseAt = none → env.presentOk = false →
        (2 : ℤ) ∈ (VolumeRenderer.Render s env).2) := by
  have hcore : ∀ t : RendererState, (VolumeRenderer.Render t env).1 = none := by
    intro t
    rw [VolumeRenderer.Render]
    rcases renderBody t env with e | l
    · cases e <;> rfl
    · rfl
  refine ⟨hcore s, ?_, ?_⟩
  · rcases g with _ | s'
    · rfl
    · rw [CTViewer.Render]
      rcases hr : VolumeRenderer.Render s' env with ⟨e, logs⟩
      rcases e with _ | ex
      · rfl
      · cases ex <;> rfl
  · intro h1 h2 h3 h4 h5
    have hb : renderBody s env
        = Except.ok
          ((((if s.volumeSRV then [] else [1]) ++ (if s.labelSRV then [] else [0])
            ++ (if s.sampler then [] else [1])) : List ℤ) ++ [2]) := by
      simp [renderBody, rstep, h1, h2, h3, h4, h5, Bind.bind, Except.bind, Pure.pure, Except.pure]
    rw [VolumeRenderer.Render, hb]
    simp

set_option maxRecDepth 40000 in
/-- C5 witness: on the initialized session state with a failing `Present` and
no exception, the error is logged and no exception is propagated. -/
theorem render_never_propagates_witness :
    (2 : ℤ) ∈ (VolumeRenderer.Render readyState ⟨none, false⟩).2
    ∧ (VolumeRenderer.Render readyState ⟨none, false⟩).1 = none :=
  ⟨(render_never_propagates readyState none ⟨none, false⟩).2.2
      (by decide) (by decide) (by decide) rfl rfl,
   (render_never_propagates readyState none ⟨none, false⟩).1⟩
